import Mathlib

/-!
Verification of the craigslistscraper contact pipeline.

This file gives a shallow embedding of the contact-extraction pipeline of
scraper_link.py and of the discovery windowing of scraper_rewritten.py, and
proves properties of the embedded functions.

Modelling conventions:
* Python strings are Lean String values; a value that may be Python None is
  an Option String (none = None).
* Python digit stripping (re.sub with the non-digit class) is modelled as
  filtering with Char.isDigit over the character list.
* Stateful browser and spreadsheet interaction is modelled by explicit
  environment records and by effect traces (lists of Effect values).
-/

namespace Craigslistscraper

/-- The digit characters of a string, in order: the result of stripping every
non-digit character, as re.sub does in validate_phone and format_phone. -/
def digitsOf (s : String) : List Char := s.toList.filter Char.isDigit

/-- Embedding of validate_phone from scraper_link.py (lines 61-74).
Returns false on a falsy input, strips non-digits, accepts digit count 10,
or 11 with a leading one. -/
def validate_phone (phone : String) : Bool :=
  if phone.isEmpty then false
  else
    let digits_only := digitsOf phone
    if digits_only.length ≠ 10 ∧ digits_only.length ≠ 11 then false
    else if digits_only.length = 11 ∧ digits_only.headD ' ' ≠ '1' then false
    else true

/-- Lifting of validate_phone to values that may be Python None:
validate_phone(None) is false via the falsy-input check. -/
def validate_phone_any (phone : Option String) : Bool :=
  match phone with
  | none => false
  | some s => validate_phone s

/-- The digit list of a string after the leading-one reduction performed by
format_phone: strip non-digits, and when 11 digits start with one, drop it. -/
def reduced_digits (s : String) : List Char :=
  let digits0 := digitsOf s
  if digits0.length = 11 ∧ digits0.headD ' ' = '1' then digits0.tail else digits0

/-- Embedding of format_phone from scraper_link.py (lines 77-90).
A falsy input (None or the empty string) returns None; otherwise non-digits
are stripped, a leading one of an 11-digit number is dropped, and exactly 10
digits are formatted in the parenthesised shape; any other digit count
returns the input unchanged. -/
def format_phone (phone : Option String) : Option String :=
  match phone with
  | none => none
  | some s =>
    if s.isEmpty then none
    else
      let digits := reduced_digits s
      if digits.length = 10 then
        some ("(" ++ String.mk (digits.take 3) ++ ") " ++
              String.mk ((digits.drop 3).take 3) ++ "-" ++
              String.mk ((digits.drop 6).take 4))
      else some s

/-- Splitting a 10-element list into its 3-3-4 chunks reassembles it. -/
theorem take_chunks_334 (l : List Char) (hlen : l.length = 10) :
    l.take 3 ++ (l.drop 3).take 3 ++ (l.drop 6).take 4 = l := by
  have h36 : l.take 3 ++ (l.drop 3).take 3 = l.take 6 := (List.take_add l 3 3).symm
  have h610 : l.take 6 ++ (l.drop 6).take 4 = l.take 10 := (List.take_add l 6 4).symm
  rw [h36, h610, List.take_of_length_le (by omega)]

/-- A string built by String.mk from a character list has that list as its
character list. -/
theorem toList_mk (l : List Char) : (String.mk l).toList = l := rfl

/-- Character list of the parenthesised phone shape over chunk lists. -/
theorem toList_phone_shape (t1 t2 t3 : List Char) :
    ("(" ++ String.mk t1 ++ ") " ++ String.mk t2 ++ "-" ++ String.mk t3).toList =
      '(' :: (t1 ++ ')' :: ' ' :: (t2 ++ '-' :: t3)) := by
  show (("(" ++ String.mk t1 ++ ") " ++ String.mk t2 ++ "-" ++ String.mk t3) : String).data = _
  simp [String.data_append]

/-- The digits of the parenthesised phone shape are exactly the chunk lists,
in order, when each chunk consists of digits. -/
theorem digitsOf_phone_shape (t1 t2 t3 : List Char)
    (h1 : ∀ c ∈ t1, Char.isDigit c) (h2 : ∀ c ∈ t2, Char.isDigit c)
    (h3 : ∀ c ∈ t3, Char.isDigit c) :
    digitsOf ("(" ++ String.mk t1 ++ ") " ++ String.mk t2 ++ "-" ++ String.mk t3) =
      t1 ++ t2 ++ t3 := by
  simp only [digitsOf, toList_phone_shape]
  rw [List.filter_cons_of_neg (by decide)]
  rw [List.filter_append, List.filter_cons_of_neg (by decide),
      List.filter_cons_of_neg (by decide), List.filter_append,
      List.filter_cons_of_neg (by decide)]
  rw [List.filter_eq_self.mpr (fun c hc => by simpa using h1 c hc),
      List.filter_eq_self.mpr (fun c hc => by simpa using h2 c hc),
      List.filter_eq_self.mpr (fun c hc => by simpa using h3 c hc),
      List.append_assoc]

/-- The parenthesised phone shape is a nonempty string. -/
theorem phone_shape_ne_empty (t1 t2 t3 : List Char) :
    ("(" ++ String.mk t1 ++ ") " ++ String.mk t2 ++ "-" ++ String.mk t3).isEmpty = false := by
  rw [Bool.eq_false_iff]
  intro h
  have h2 := (String.isEmpty_iff _).mp h
  have h3 := congrArg String.toList h2
  rw [toList_phone_shape] at h3
  exact List.noConfusion h3

end Craigslistscraper

namespace Craigslistscraper

/-- C4: Round-trip fixed point: for every string d of exactly 10 digits,
format_phone d has the exact parenthesised shape built from the 10 digits of
d in order, the digit characters of the output are exactly the characters of
d in order, and validate_phone accepts the output. -/
theorem c4_format_roundtrip (d : String) (hlen : d.length = 10)
    (hdig : d.toList.all Char.isDigit = true) :
    format_phone (some d) =
      some ("(" ++ String.mk (d.toList.take 3) ++ ") " ++
            String.mk ((d.toList.drop 3).take 3) ++ "-" ++
            String.mk ((d.toList.drop 6).take 4)) ∧
    (∀ out, format_phone (some d) = some out →
       digitsOf out = d.toList ∧ validate_phone out = true) := by
  have hall : ∀ c ∈ d.toList, Char.isDigit c := by
    intro c hc
    simpa using List.all_eq_true.mp hdig c hc
  have hd : digitsOf d = d.toList :=
    List.filter_eq_self.mpr (fun c hc => by simpa using hall c hc)
  have hlen10 : d.toList.length = 10 := hlen
  have hne : d.isEmpty = false := by
    rw [Bool.eq_false_iff]
    intro h
    rw [String.isEmpty_iff] at h
    subst h
    simp [String.length] at hlen
  have hred : reduced_digits d = d.toList := by
    simp only [reduced_digits, hd, hlen10]
    norm_num
  have hfmt : format_phone (some d) =
      some ("(" ++ String.mk (d.toList.take 3) ++ ") " ++
            String.mk ((d.toList.drop 3).take 3) ++ "-" ++
            String.mk ((d.toList.drop 6).take 4)) := by
    simp only [format_phone, hne, Bool.false_eq_true, if_false, hred, hlen10, if_pos rfl,
      if_true]
  refine ⟨hfmt, ?_⟩
  intro out hout
  rw [hfmt] at hout
  have hout2 := Option.some.inj hout
  subst hout2
  have hdigits : digitsOf ("(" ++ String.mk (d.toList.take 3) ++ ") " ++
      String.mk ((d.toList.drop 3).take 3) ++ "-" ++
      String.mk ((d.toList.drop 6).take 4)) = d.toList := by
    rw [digitsOf_phone_shape _ _ _
        (fun c hc => hall c (List.mem_of_mem_take hc))
        (fun c hc => hall c (List.mem_of_mem_drop (List.mem_of_mem_take hc)))
        (fun c hc => hall c (List.mem_of_mem_drop (List.mem_of_mem_take hc)))]
    exact take_chunks_334 d.toList hlen10
  refine ⟨hdigits, ?_⟩
  simp only [validate_phone, phone_shape_ne_empty, Bool.false_eq_true, if_false, hdigits,
    hlen10]
  norm_num

/-- C4 witness: the round trip at the concrete 10-digit string 0123456789. -/
theorem c4_witness :
    format_phone (some "0123456789") = some "(012) 345-6789" ∧
    validate_phone "(012) 345-6789" = true := by
  have h := c4_format_roundtrip "0123456789" (by decide) (by decide)
  have h1 : format_phone (some "0123456789") = some "(012) 345-6789" := by
    rw [h.1]
    rfl
  exact ⟨h1, (h.2 "(012) 345-6789" h1).2⟩

/-- C5: validate_phone is true exactly when the digits remaining after
stripping non-digit characters number exactly 10, or exactly 11 with the
first digit equal to one; in particular every all-digit string of length 11
whose first character is not one is rejected. -/
theorem c5_validate_phone_spec :
    (∀ s : String, validate_phone s = true ↔
       ((digitsOf s).length = 10 ∨
        ((digitsOf s).length = 11 ∧ (digitsOf s).headD ' ' = '1'))) ∧
    (∀ s : String, s.length = 11 → s.toList.all Char.isDigit = true →
       s.toList.headD ' ' ≠ '1' → validate_phone s = false) := by
  have hmain : ∀ s : String, validate_phone s = true ↔
      ((digitsOf s).length = 10 ∨
       ((digitsOf s).length = 11 ∧ (digitsOf s).headD ' ' = '1')) := by
    intro s
    by_cases hs : s.isEmpty
    · have hs2 := (String.isEmpty_iff s).mp hs
      subst hs2
      simp [validate_phone, digitsOf]
    · rw [Bool.not_eq_true] at hs
      by_cases h10 : (digitsOf s).length = 10
      · simp [validate_phone, hs, h10]
      · by_cases h11 : (digitsOf s).length = 11
        · by_cases hhd : (digitsOf s).headD ' ' = '1'
          · simp [validate_phone, hs, h10, h11, hhd]
          · simp [validate_phone, hs, h10, h11, hhd]
        · simp [validate_phone, hs, h10, h11]
  refine ⟨hmain, ?_⟩
  intro s hlen hdig hhd
  have hd : digitsOf s = s.toList :=
    List.filter_eq_self.mpr (fun c hc => List.all_eq_true.mp hdig c hc)
  rw [Bool.eq_false_iff, Ne, hmain s, hd]
  intro hcontra
  rcases hcontra with h | ⟨_, h⟩
  · rw [show s.toList.length = 11 from hlen] at h
    omega
  · exact hhd h

/-- C5 witness: an 11-digit string with first digit 2 is rejected. -/
theorem c5_witness : validate_phone "23456789012" = false :=
  c5_validate_phone_spec.2 "23456789012" (by decide) (by decide) (by decide)

/-- C6 counterexample: the claim says format_phone returns every
not-10-digit-reducible input unchanged including the empty string, but the
code returns None on the empty string. -/
theorem c6_counterexample :
    format_phone (some "") = none ∧ (none : Option String) ≠ some "" := by
  refine ⟨?_, by decide⟩
  rfl

/-- C6 amended: format_phone maps None to None, and every string whose
reduced digit list does not number exactly 10 to itself, except a falsy
(empty) string, which yields None; the embedding is total, so no exception
is possible. -/
theorem c6_format_phone_invalid :
    format_phone none = none ∧
    ∀ s : String, (reduced_digits s).length ≠ 10 →
      format_phone (some s) = if s.isEmpty then none else some s := by
  refine ⟨rfl, ?_⟩
  intro s h
  by_cases hs : s.isEmpty
  · simp [format_phone, hs]
  · rw [Bool.not_eq_true] at hs
    simp [format_phone, hs, h]

/-- C6 witness: a letters-only string has no digits and comes back
unchanged. -/
theorem c6_witness : format_phone (some "abc") = some "abc" := by
  have h := c6_format_phone_invalid.2 "abc" (by decide)
  rw [h]
  rfl

end Craigslistscraper

namespace Craigslistscraper

/-- One extracted result item of the discovery phase of
scraper_rewritten.py: the resolved absolute link, the target-day flag, and
the displayed date text, as produced by
extract_post_urls_and_dates_from_html. -/
structure PostItem where
  url : String
  is_today : Bool
  date_str : String
  deriving DecidableEq

/-- Loop body of the target-day windowing in run_scraper
(scraper_rewritten.py lines 558-573), with the found_first_today flag made
explicit: a target-day item is collected and sets the flag; a non-target
item before the flag is set is skipped; a non-target item after the flag is
set stops the collection. -/
def filter_today_go : List PostItem → Bool → List PostItem
  | [], _ => []
  | item :: rest, found_first_today =>
    if item.is_today then item :: filter_today_go rest true
    else if found_first_today then []
    else filter_today_go rest found_first_today

/-- The target-day windowing of run_scraper over the extracted items, in
document order, starting with found_first_today = False. -/
def filter_today_postings (post_data : List PostItem) : List PostItem :=
  filter_today_go post_data false

/-- With the flag set, the windowing loop takes the leading target-day run. -/
theorem filter_today_go_true (l : List PostItem) :
    filter_today_go l true = l.takeWhile (fun p => p.is_today) := by
  induction l with
  | nil => rfl
  | cons item rest ih =>
    by_cases h : item.is_today
    · simp [filter_today_go, h, List.takeWhile_cons, ih]
    · simp [filter_today_go, h, List.takeWhile_cons]

/-- C1: Discovery target-day windowing: over the extracted items in document
order, the collected postings are exactly the first contiguous run of
target-day items after skipping the non-target items that precede it; in
particular flags true,true,false return the first two items, and flags
false,true,false return exactly the middle item. -/
theorem c1_discovery_windowing :
    (∀ l : List PostItem,
       filter_today_postings l =
         (l.dropWhile (fun p => !p.is_today)).takeWhile (fun p => p.is_today)) ∧
    (∀ a b c : PostItem, a.is_today = true → b.is_today = true →
       c.is_today = false → filter_today_postings [a, b, c] = [a, b]) ∧
    (∀ a b c : PostItem, a.is_today = false → b.is_today = true →
       c.is_today = false → filter_today_postings [a, b, c] = [b]) := by
  have hmain : ∀ l : List PostItem,
      filter_today_postings l =
        (l.dropWhile (fun p => !p.is_today)).takeWhile (fun p => p.is_today) := by
    intro l
    induction l with
    | nil => rfl
    | cons item rest ih =>
      by_cases h : item.is_today
      · simp [filter_today_postings, filter_today_go, h, filter_today_go_true,
          List.dropWhile_cons, List.takeWhile_cons]
      · simpa [filter_today_postings, filter_today_go, h, List.dropWhile_cons] using ih
  refine ⟨hmain, ?_, ?_⟩
  · intro a b c ha hb hc
    rw [hmain]
    simp [List.dropWhile_cons, List.takeWhile_cons, ha, hb, hc]
  · intro a b c ha hb hc
    rw [hmain]
    simp [List.dropWhile_cons, List.takeWhile_cons, ha, hb, hc]

/-- C1 witness: the two concrete windowing scenarios from the spec. -/
theorem c1_witness :
    filter_today_postings
        [⟨"u1", true, "10/12"⟩, ⟨"u2", true, "10/12"⟩, ⟨"u3", false, "10/11"⟩] =
      [⟨"u1", true, "10/12"⟩, ⟨"u2", true, "10/12"⟩] ∧
    filter_today_postings
        [⟨"u1", false, "10/11"⟩, ⟨"u2", true, "10/12"⟩, ⟨"u3", false, "10/11"⟩] =
      [⟨"u2", true, "10/12"⟩] :=
  ⟨c1_discovery_windowing.2.1 _ _ _ rfl rfl rfl,
   c1_discovery_windowing.2.2 _ _ _ rfl rfl rfl⟩

end Craigslistscraper

namespace Craigslistscraper

/-- Python str.strip over the character list: leading and trailing
whitespace removed. Defined structurally so that concrete instances
evaluate inside the kernel. -/
def pystrip (s : String) : String :=
  String.mk (((s.toList.dropWhile Char.isWhitespace).reverse.dropWhile
    Char.isWhitespace).reverse)

/-- Python str.lower over the character list. -/
def pylower (s : String) : String := String.mk (s.toList.map Char.toLower)

/-- Python membership test of a character in a string. -/
def pycontains (s : String) (c : Char) : Bool := s.toList.contains c

/-- The entry contributed by one scanned row of get_todays_outreach_links:
when the stripped date cell equals the target date string and the URL cell
of the same row exists and is nonempty, the sheet row number (index plus
one), the stripped URL, and the date value are emitted. -/
def fetch_entry (today_str : String) (url_column : List String)
    (row_num : Nat) (date_value : String) : List (Nat × String × String) :=
  if date_value = today_str then
    match url_column[row_num]? with
    | some u => if ¬ u.isEmpty then [(row_num + 1, pystrip u, date_value)] else []
    | none => []
  else []

/-- Loop body of get_todays_outreach_links (scraper_link.py lines 221-253):
row_num walks the date column from index 1 (skipping the header at index 0);
an empty date cell stops the scan; other rows contribute their entry. -/
def fetch_links_go (today_str : String) (url_column : List String) :
    Nat → List String → List (Nat × String × String)
  | _, [] => []
  | row_num, d :: rest =>
    if d.isEmpty then []
    else
      fetch_entry today_str url_column row_num (pystrip d) ++
        fetch_links_go today_str url_column (row_num + 1) rest

/-- Embedding of get_todays_outreach_links from scraper_link.py
(lines 221-253): scan column 3 (dates) from the second row, match against
the formatted target date, and pair with column 11 (URLs). The bulk column
fetches are passed in as the two column value lists. -/
def get_todays_outreach_links (today_str : String)
    (date_column url_column : List String) : List (Nat × String × String) :=
  fetch_links_go today_str url_column 1 (date_column.drop 1)

/-- A row entry always carries the sheet row number of its own row. -/
theorem fetch_entry_row (today_str : String) (url_column : List String)
    (row_num : Nat) (date_value : String) :
    ∀ e ∈ fetch_entry today_str url_column row_num date_value,
      e.1 = row_num + 1 := by
  intro e he
  unfold fetch_entry at he
  split at he
  · split at he
    · split at he
      · have := List.mem_singleton.mp he
        subst this
        rfl
      · simp at he
    · simp at he
  · simp at he

/-- Every row number emitted by the scan loop is bounded by the position of
any empty date cell in the remaining date list. -/
theorem fetch_links_go_bound (today_str : String) (url_column : List String)
    (l : List String) (row_num k : Nat) (hk : l[k]? = some "") :
    ∀ e ∈ fetch_links_go today_str url_column row_num l, e.1 ≤ row_num + k := by
  induction l generalizing row_num k with
  | nil => simp [fetch_links_go]
  | cons d rest ih =>
    intro e he
    rw [fetch_links_go] at he
    by_cases hde : d.isEmpty
    · rw [if_pos hde] at he
      simp at he
    · rw [if_neg hde] at he
      simp only [List.mem_append] at he
      match k with
      | 0 =>
        have hd : d = "" := by simpa using hk
        subst hd
        exact absurd (by decide) hde
      | k + 1 =>
        have hk2 : rest[k]? = some "" := by simpa using hk
        rcases he with he | he
        · have := fetch_entry_row today_str url_column row_num (pystrip d) e he
          omega
        · have := ih (row_num + 1) k hk2 e he
          omega

/-- C10: the fetch of the target-day outreach links stops at the first empty
date cell: whenever the date column has an empty cell at index j at or after
the first scanned row, every returned entry carries a sheet row number at
most j, so every sheet row strictly below the blank cell (sheet row j + 1)
is never returned, whatever its date cell holds. -/
theorem c10_fetch_stops_at_blank (today_str : String)
    (date_column url_column : List String) (j : Nat) (hj : 1 ≤ j)
    (hblank : date_column[j]? = some "") :
    ∀ e ∈ get_todays_outreach_links today_str date_column url_column, e.1 ≤ j := by
  intro e he
  have hdrop : (date_column.drop 1)[j - 1]? = some "" := by
    rw [List.getElem?_drop]
    rw [show 1 + (j - 1) = j by omega]
    exact hblank
  have := fetch_links_go_bound today_str url_column (date_column.drop 1) 1 (j - 1) hdrop e he
  omega

/-- C10 witness: a blank date cell at sheet row 4 hides a matching row 5:
only row 2 is returned, and every returned row number is at most 3. -/
theorem c10_witness :
    (∀ e ∈ get_todays_outreach_links "10/12"
        ["Date", "10/12", "10/11", "", "10/12"]
        ["Link", "u1", "u2", "u3", "u4"], e.1 ≤ 3) ∧
    get_todays_outreach_links "10/12"
        ["Date", "10/12", "10/11", "", "10/12"]
        ["Link", "u1", "u2", "u3", "u4"] = [(2, "u1", "10/12")] := by
  refine ⟨?_, by decide⟩
  exact c10_fetch_stops_at_blank "10/12" _ _ 3 (by decide) (by decide)

end Craigslistscraper

namespace Craigslistscraper

/-- The proxy-related environment variables read at startup by
scraper_link.py (lines 26-29): the PROXY_ENABLED flag variable and the three
credential variables; none is a variable that is not set. -/
structure ProxySettings where
  proxy_enabled_var : Option String
  proxy_server : Option String
  proxy_username : Option String
  proxy_password : Option String

/-- Python truthiness of an optional environment value: set and nonempty. -/
def truthy (o : Option String) : Bool :=
  match o with
  | none => false
  | some s => ¬ s.isEmpty

/-- Embedding of the PROXY_ENABLED computation (scraper_link.py line 26):
the variable, defaulted to false, lowercased, compared with true. -/
def PROXY_ENABLED (e : ProxySettings) : Bool :=
  pylower (e.proxy_enabled_var.getD "false") = "true"

/-- Embedding of the startup proxy check of scraper_link.py (lines 31-33),
run at import time before any navigation: when the proxy flag is enabled and
any of the three credential variables is falsy, a ValueError is raised. -/
def proxy_startup_check (e : ProxySettings) : Except String Unit :=
  if PROXY_ENABLED e then
    if ¬ (truthy e.proxy_server ∧ truthy e.proxy_username ∧
          truthy e.proxy_password) then
      Except.error "Proxy is enabled but credentials are incomplete."
    else Except.ok ()
  else Except.ok ()

/-- C8 counterexample: with the proxy flag unset, a configuration where the
server is present but username and password are absent raises no startup
error, although the claim requires a fatal error for every partial
configuration. -/
theorem c8_counterexample :
    (truthy (ProxySettings.mk none (some "http://proxy.example:8080") none
        none).proxy_server = true ∧
     truthy (ProxySettings.mk none (some "http://proxy.example:8080") none
        none).proxy_username = false ∧
     truthy (ProxySettings.mk none (some "http://proxy.example:8080") none
        none).proxy_password = false) ∧
    proxy_startup_check
        (ProxySettings.mk none (some "http://proxy.example:8080") none none) =
      Except.ok () := by
  exact ⟨⟨by decide, by decide, by decide⟩, rfl⟩

/-- C8 amended: the startup check raises a fatal configuration error exactly
when the proxy flag is enabled and not all three of server, username and
password are present; with the flag disabled no error is raised, whichever
subset of the three fields is present. -/
theorem c8_proxy_check (e : ProxySettings) :
    (∃ msg, proxy_startup_check e = Except.error msg) ↔
      (PROXY_ENABLED e = true ∧
       ¬ (truthy e.proxy_server = true ∧ truthy e.proxy_username = true ∧
          truthy e.proxy_password = true)) := by
  by_cases hen : PROXY_ENABLED e = true <;>
    by_cases hall : truthy e.proxy_server = true ∧
        truthy e.proxy_username = true ∧ truthy e.proxy_password = true <;>
    simp [proxy_startup_check, hen, hall]

end Craigslistscraper

namespace Craigslistscraper

/-- Substring containment over character lists, as the Python in operator on
strings: the needle occurs contiguously in the haystack. -/
def contains_sub (needle : List Char) : List Char → Bool
  | [] => needle.isEmpty
  | c :: t => needle.isPrefixOf (c :: t) || contains_sub needle t

/-- Characters admitted by the local-part class of the email pattern of
validate_email (scraper_link.py line 49). -/
def email_local_char (c : Char) : Bool :=
  c.isAlpha || c.isDigit || c == '.' || c == '_' || c == '%' || c == '+' || c == '-'

/-- Characters admitted by the domain class of the email pattern. -/
def email_domain_char (c : Char) : Bool :=
  c.isAlpha || c.isDigit || c == '.' || c == '-'

/-- Characters admitted by the top-level-domain class of the email pattern;
the class in the source is written with a literal bar, so the bar character
is admitted. -/
def email_tld_char (c : Char) : Bool :=
  c.isAlpha || c == '|'

/-- Matcher for the anchored email regular expression of validate_email:
a nonempty local part over its class, one at-sign, a nonempty domain over
its class, a dot, and a top-level domain of length at least two over its
class. Since neither the domain class nor the tld class admits the at-sign,
and the tld class does not admit the dot, the split points are the first
at-sign and the last dot, which is what this matcher uses. -/
def matches_email_pattern (s : String) : Bool :=
  let l := s.toList
  let local_part := l.takeWhile (fun c => c != '@')
  match l.dropWhile (fun c => c != '@') with
  | [] => false
  | _ :: domain_part =>
    match domain_part.reverse.dropWhile (fun c => c != '.') with
    | [] => false
    | _ :: dom_rev =>
      let tld := (domain_part.reverse.takeWhile (fun c => c != '.')).reverse
      let dom := dom_rev.reverse
      ¬ local_part.isEmpty && local_part.all email_local_char &&
        ¬ dom.isEmpty && dom.all email_domain_char &&
        decide (2 ≤ tld.length) && tld.all email_tld_char

/-- The placeholder deny-list of validate_email (scraper_link.py line 54). -/
def invalid_domains : List String :=
  ["noreply", "no-reply", "donotreply", "example.com", "test.com"]

/-- Embedding of validate_email from scraper_link.py (lines 44-58): falsy
input is rejected, the anchored email pattern must match, and no deny-listed
placeholder string may occur in the lowercased input. -/
def validate_email (email : Option String) : Bool :=
  match email with
  | none => false
  | some s =>
    if s.isEmpty then false
    else if ¬ matches_email_pattern s then false
    else if invalid_domains.any
        (fun d => contains_sub d.toList (pylower s).toList) then false
    else true

/-- The spreadsheet as seen through the cell reads and writes the pipeline
performs: a map from one-based row and column numbers to the optional cell
value. -/
structure Worksheet where
  cell : Nat → Nat → Option String

/-- Embedding of check_if_contact_exists from scraper_link.py
(lines 256-271): reads the email-output cell (column 12) of the given row
and answers true exactly when the cell is truthy, nonempty after stripping,
and contains an at-sign. -/
def check_if_contact_exists (ws : Worksheet) (row_number : Nat) : Bool :=
  match ws.cell row_number 12 with
  | none => false
  | some v =>
    if ¬ v.isEmpty ∧ ¬ (pystrip v).isEmpty then pycontains v '@' else false

/-- Observable side effects of the per-listing pipeline: page navigation,
invocation of the contact-reveal machinery
(extract_contact_info_from_page), and single-cell store writes. -/
inductive Effect where
  | navigate (url : String)
  | invokeReveal
  | writeCell (row col : Nat) (value : String)
  deriving DecidableEq

/-- The contact dictionary assembled by extract_contact_info_from_page. -/
structure ContactInfo where
  email : Option String
  phone : Option String

/-- Per-listing browser environment: whether page.goto succeeds, the error
text when it does not, and the outcome of the reveal machinery (None models
both an exception and a page without contact options). -/
structure PageEnv where
  navOk : Bool
  nav_error : String
  extraction : Option ContactInfo

/-- Embedding of update_contact_in_sheet from scraper_link.py
(lines 274-307): writes the email cell (column 12) with the value when
truthy and valid, else the no-email marker, and the phone cell (column 13)
with the formatted value when truthy and valid, else the no-phone marker;
the returned flag records whether either real value was written. -/
def update_contact_in_sheet (row_number : Nat) (email phone : Option String) :
    List Effect × Bool :=
  let emailRes : List Effect × Bool :=
    if truthy email ∧ validate_email email then
      ([Effect.writeCell row_number 12 (email.getD "")], true)
    else ([Effect.writeCell row_number 12 "No email found"], false)
  let phoneRes : List Effect × Bool :=
    if truthy phone ∧ validate_phone_any phone then
      ([Effect.writeCell row_number 13 ((format_phone phone).getD "")], true)
    else ([Effect.writeCell row_number 13 "No phone found"], false)
  (emailRes.1 ++ phoneRes.1, emailRes.2 || phoneRes.2)

/-- The dictionary returned by process_url for one listing. -/
structure UrlResult where
  row_number : Nat
  url : String
  status : String
  reason : Option String
  error_msg : Option String
  email : Option String
  phone : Option String
  sheet_updated : Option Bool
  deriving DecidableEq

/-- Embedding of process_url from scraper_link.py (lines 485-552): the dedup
gate is consulted first and a positive answer short-circuits into the
skipped outcome with no effects; otherwise the page is navigated (failure
gives the error outcome), the reveal machinery is invoked, the store cells
are written through update_contact_in_sheet, and the outcome is success
exactly when an email or phone value was obtained. -/
def process_url (penv : PageEnv) (url : String) (row_number : Nat)
    (ws : Worksheet) : UrlResult × List Effect :=
  if check_if_contact_exists ws row_number then
    ({ row_number := row_number, url := url, status := "skipped",
       reason := some "Contact already exists in sheet", error_msg := none,
       email := none, phone := none, sheet_updated := none }, [])
  else if ¬ penv.navOk then
    ({ row_number := row_number, url := url, status := "error", reason := none,
       error_msg := some penv.nav_error, email := none, phone := none,
       sheet_updated := some false }, [Effect.navigate url])
  else
    let email := match penv.extraction with
      | some ci => ci.email
      | none => none
    let phone := match penv.extraction with
      | some ci => ci.phone
      | none => none
    let upd := update_contact_in_sheet row_number email phone
    let status := if truthy email || truthy phone then "success" else "no_contact"
    ({ row_number := row_number, url := url, status := status, reason := none,
       error_msg := none, email := email, phone := phone,
       sheet_updated := some upd.2 },
     Effect.navigate url :: Effect.invokeReveal :: upd.1)

/-- Replaying one effect against the store: cell writes update the cell map;
the other effects leave the store unchanged. -/
def apply_effect (ws : Worksheet) : Effect → Worksheet
  | Effect.writeCell r c v =>
    ⟨fun r2 c2 => if r2 = r ∧ c2 = c then some v else ws.cell r2 c2⟩
  | _ => ws

/-- Replaying a trace of effects against the store. -/
def apply_effects (ws : Worksheet) (l : List Effect) : Worksheet :=
  l.foldl apply_effect ws

/-- Stripping an empty string yields an empty string. -/
theorem pystrip_empty_of_empty (v : String) (h : v.isEmpty = true) :
    (pystrip v).isEmpty = true := by
  rw [(String.isEmpty_iff v).mp h]
  decide

/-- The dedup predicate holds exactly when the email-output cell holds a
value that is nonempty after stripping and contains an at-sign. -/
theorem check_if_contact_exists_iff (ws : Worksheet) (row : Nat) :
    check_if_contact_exists ws row = true ↔
      ∃ v, ws.cell row 12 = some v ∧ (pystrip v).isEmpty = false ∧
        pycontains v '@' = true := by
  cases hc : ws.cell row 12 with
  | none => simp [check_if_contact_exists, hc]
  | some v =>
    by_cases h2 : (pystrip v).isEmpty
    · simp [check_if_contact_exists, hc, h2]
    · by_cases h1 : v.isEmpty
      · exact absurd (pystrip_empty_of_empty v h1) h2
      · simp [check_if_contact_exists, hc, h1, h2]

/-- C2: Dedup idempotence: when the email-output cell (column 12) of a row
is nonempty after stripping and contains an at-sign, process_url on that row
answers the skipped outcome, performs no effect at all (so neither the
reveal machinery nor any cell write happens), and leaves the store
unchanged; and the dedup predicate is true exactly under that condition. -/
theorem c2_dedup_idempotence :
    (∀ (ws : Worksheet) (row : Nat),
       check_if_contact_exists ws row = true ↔
         ∃ v, ws.cell row 12 = some v ∧ (pystrip v).isEmpty = false ∧
           pycontains v '@' = true) ∧
    (∀ (penv : PageEnv) (url : String) (row : Nat) (ws : Worksheet)
       (v : String), ws.cell row 12 = some v → (pystrip v).isEmpty = false →
       pycontains v '@' = true →
         (process_url penv url row ws).1.status = "skipped" ∧
         (process_url penv url row ws).2 = [] ∧
         Effect.invokeReveal ∉ (process_url penv url row ws).2 ∧
         apply_effects ws (process_url penv url row ws).2 = ws) := by
  refine ⟨check_if_contact_exists_iff, ?_⟩
  intro penv url row ws v hcell hstrip hat
  have hchk : check_if_contact_exists ws row = true :=
    (check_if_contact_exists_iff ws row).mpr ⟨v, hcell, hstrip, hat⟩
  refine ⟨?_, ?_, ?_, ?_⟩ <;> simp [process_url, hchk, apply_effects]

/-- C2 witness: a concrete store whose row 2 email cell holds a@b.com is
skipped with no effects. -/
theorem c2_witness :
    (process_url ⟨true, "", none⟩ "http://listing.example"
        2 ⟨fun r c => if r = 2 ∧ c = 12 then some "a@b.com" else none⟩).1.status =
      "skipped" ∧
    (process_url ⟨true, "", none⟩ "http://listing.example"
        2 ⟨fun r c => if r = 2 ∧ c = 12 then some "a@b.com" else none⟩).2 = [] := by
  have h := c2_dedup_idempotence.2 ⟨true, "", none⟩ "http://listing.example" 2
    ⟨fun r c => if r = 2 ∧ c = 12 then some "a@b.com" else none⟩ "a@b.com"
    (by decide) (by decide) (by decide)
  exact ⟨h.1, h.2.1⟩

end Craigslistscraper

namespace Craigslistscraper

/-- The interaction points of extract_from_clipboard, in the order the code
reaches them: activating the channel button, querying for the copy control,
activating it, reading the clipboard, and scanning the rendered markup. -/
inductive ExtractStep where
  | clickOption
  | queryCopy
  | clickCopy
  | clipboardRead
  | markupScan
  deriving DecidableEq

/-- Environment of one channel extraction: whether the channel button click
succeeds, whether the copy control is found, the clipboard value (none
models a failed read), and the email-shaped and phone-shaped matches the
markup scan would find in the rendered page. -/
structure ClipEnv where
  clickOk : Bool
  copy_button : Bool
  clipboard : Option String
  email_matches : List String
  phone_matches : List (String × String × String)

/-- Embedding of extract_from_clipboard from scraper_link.py
(lines 337-400): click the channel button, look for the copy control; when
it exists, click it, try the clipboard (validated value wins), then fall
back to scanning the markup matches (first validated match wins, phones
joined from the regex groups and formatted); when the copy control is
absent, or a click raises, the channel yields None. -/
def extract_from_clipboard (env : ClipEnv) (contact_type : String) :
    Option String × List ExtractStep :=
  if ¬ env.clickOk then (none, [ExtractStep.clickOption])
  else if ¬ env.copy_button then
    (none, [ExtractStep.clickOption, ExtractStep.queryCopy])
  else
    let steps0 := [ExtractStep.clickOption, ExtractStep.queryCopy,
                   ExtractStep.clickCopy, ExtractStep.clipboardRead]
    let clip_result : Option String :=
      match env.clipboard with
      | none => none
      | some ci =>
        if ¬ ci.isEmpty ∧ ¬ (pystrip ci).isEmpty then
          if contact_type = "email" ∧ validate_email (some (pystrip ci)) then
            some (pystrip ci)
          else if (contact_type = "call" ∨ contact_type = "text") ∧
              validate_phone (pystrip ci) then
            some (pystrip ci)
          else none
        else none
    match clip_result with
    | some value => (some value, steps0)
    | none =>
      let steps1 := steps0 ++ [ExtractStep.markupScan]
      if contact_type = "email" then
        match (env.email_matches.filter
            (fun m => validate_email (some m))).head? with
        | some e => (some e, steps1)
        | none => (none, steps1)
      else if contact_type = "call" ∨ contact_type = "text" then
        match env.phone_matches.head? with
        | some g =>
          match format_phone (some (g.1 ++ g.2.1 ++ g.2.2)) with
          | some p => if validate_phone p then (some p, steps1)
                      else (none, steps1)
          | none => (none, steps1)
        | none => (none, steps1)
      else (none, steps1)

/-- C9: when the copy control cannot be located after activating the channel
button, the channel extraction returns None and neither the clipboard read
nor the markup scan is ever attempted. -/
theorem c9_copy_control_gate (env : ClipEnv) (contact_type : String)
    (hclick : env.clickOk = true) (hcopy : env.copy_button = false) :
    (extract_from_clipboard env contact_type).1 = none ∧
    ExtractStep.clipboardRead ∉ (extract_from_clipboard env contact_type).2 ∧
    ExtractStep.markupScan ∉ (extract_from_clipboard env contact_type).2 := by
  simp [extract_from_clipboard, hclick, hcopy]

/-- C9 witness: a concrete environment whose markup even contains a valid
email still yields None with no clipboard read or markup scan when the copy
control is missing. -/
theorem c9_witness :
    (extract_from_clipboard ⟨true, false, some "a@b.com", ["a@b.com"], []⟩
        "email").1 = none ∧
    ExtractStep.clipboardRead ∉
      (extract_from_clipboard ⟨true, false, some "a@b.com", ["a@b.com"], []⟩
        "email").2 ∧
    ExtractStep.markupScan ∉
      (extract_from_clipboard ⟨true, false, some "a@b.com", ["a@b.com"], []⟩
        "email").2 :=
  c9_copy_control_gate ⟨true, false, some "a@b.com", ["a@b.com"], []⟩
    "email" rfl rfl

end Craigslistscraper

namespace Craigslistscraper

/-- Wall-clock behaviour of one listing of the run: the time its processing
consumes and its per-listing browser environment. -/
structure ListingEnv where
  duration : Nat
  penv : PageEnv

/-- Environment of one whole run of run_outreach_processor: whether the
store connection succeeds, the store itself, the formatted target date and
the two bulk-fetched columns, the elapsed time observed at the post-setup
check and at the start of the processing loop, whether the browser launch
succeeds, and the per-index listing behaviour. -/
structure RunEnv where
  sheets_ok : Bool
  ws : Worksheet
  today_str : String
  date_column : List String
  url_column : List String
  setup_elapsed : Nat
  loop_start_elapsed : Nat
  browser_ok : Bool
  listing_env : Nat → ListingEnv

/-- The unconditional two-second pacing delay between successive listings:
applied after a listing exactly when more listings remain. -/
def pacing (rest : List (Nat × String × String)) : Nat :=
  if rest.isEmpty then 0 else 2

/-- Embedding of the URL-processing loop of run_outreach_processor
(scraper_link.py lines 680-697): before each listing the elapsed time is
compared with the budget and the loop stops when it is exceeded; otherwise
the listing is processed to completion through process_url, its result is
recorded, its effects are replayed against the store, and the pacing delay
is added when further listings remain. -/
def process_loop (renv : RunEnv) (timeout_seconds : Nat) :
    Nat → Nat → Worksheet → List (Nat × String × String) → List UrlResult
  | _, _, _, [] => []
  | idx, elapsed, ws, entry :: rest =>
    if elapsed > timeout_seconds then []
    else
      let pr := process_url (renv.listing_env idx).penv entry.2.1 entry.1 ws
      pr.1 :: process_loop renv timeout_seconds (idx + 1)
        (elapsed + (renv.listing_env idx).duration + pacing rest)
        (apply_effects ws pr.2) rest

/-- Embedding of run_outreach_processor from scraper_link.py
(lines 558-756): store setup failure returns False; budget exhaustion right
after setup returns True with no results; an empty target-day link list
returns False; otherwise the (test-mode capped) links are processed by the
loop (an unlaunchable browser leaves the results empty) and the run returns
True together with the recorded results. -/
def run_outreach_processor (renv : RunEnv) (test_mode : Bool)
    (max_links timeout_seconds : Nat) : Bool × List UrlResult :=
  if ¬ renv.sheets_ok then (false, [])
  else if renv.setup_elapsed > timeout_seconds then (true, [])
  else
    let todays_links := get_todays_outreach_links renv.today_str
      renv.date_column renv.url_column
    if todays_links.isEmpty then (false, [])
    else
      let links := if test_mode then todays_links.take max_links
                   else todays_links
      let results :=
        if renv.browser_ok then
          process_loop renv timeout_seconds 0 renv.loop_start_elapsed
            renv.ws links
        else []
      (true, results)

/-- A run in which the store connects, one target-day link exists, and its
navigation fails: every processed listing ends in the error outcome. -/
def c3_env : RunEnv :=
  { sheets_ok := true
    ws := ⟨fun _ _ => none⟩
    today_str := "10/12"
    date_column := ["Date", "10/12"]
    url_column := ["Link", "http://listing.one"]
    setup_elapsed := 0
    loop_start_elapsed := 0
    browser_ok := true
    listing_env := fun _ => ⟨1, ⟨false, "HTTP Error", none⟩⟩ }

/-- C3 counterexample: a run past store setup and link fetching in which
every listing ends in the error outcome still returns the successful exit
status, so the exit status is not an if-and-only-if of some listing reaching
success. -/
theorem c3_counterexample :
    c3_env.sheets_ok = true ∧
    ¬ (c3_env.setup_elapsed > 60) ∧
    (get_todays_outreach_links c3_env.today_str c3_env.date_column
        c3_env.url_column).isEmpty = false ∧
    (run_outreach_processor c3_env true 3 60).2 ≠ [] ∧
    (∀ r ∈ (run_outreach_processor c3_env true 3 60).2, r.status = "error") ∧
    ¬ ((run_outreach_processor c3_env true 3 60).1 = true ↔
        ∃ r ∈ (run_outreach_processor c3_env true 3 60).2,
          r.status = "success") := by
  decide

/-- C3 amended: every run of run_outreach_processor that gets past store
setup and link fetching returns the successful exit status, regardless of
the outcomes of the individual listings. -/
theorem c3_exit_status (renv : RunEnv) (test_mode : Bool)
    (max_links timeout_seconds : Nat) (hsheets : renv.sheets_ok = true)
    (hlinks : (get_todays_outreach_links renv.today_str renv.date_column
        renv.url_column).isEmpty = false) :
    (run_outreach_processor renv test_mode max_links timeout_seconds).1 =
      true := by
  by_cases hto : renv.setup_elapsed > timeout_seconds <;>
    simp [run_outreach_processor, hsheets, hlinks, hto]

/-- C3 witness: the amended statement applied to the concrete all-error
run. -/
theorem c3_witness : (run_outreach_processor c3_env true 3 60).1 = true :=
  c3_exit_status c3_env true 3 60 (by decide) (by decide)

end Craigslistscraper

namespace Craigslistscraper

/-- C7: Budget semantics: the elapsed-time budget is checked only between
listings: whenever the check passes, the next listing runs to completion
through process_url and its result is recorded, with no condition on how
long that listing itself takes; once the elapsed time exceeds the budget no
further listing is started and the loop yields nothing more, so the results
gathered before the check are retained; and a run past setup with links
still returns the successful exit status, making budget exhaustion a
partial, non-error completion. -/
theorem c7_budget_semantics :
    (∀ (renv : RunEnv) (ts idx elapsed : Nat) (ws : Worksheet)
       (entry : Nat × String × String) (rest : List (Nat × String × String)),
       elapsed ≤ ts →
         process_loop renv ts idx elapsed ws (entry :: rest) =
           (process_url (renv.listing_env idx).penv entry.2.1 entry.1 ws).1 ::
             process_loop renv ts (idx + 1)
               (elapsed + (renv.listing_env idx).duration + pacing rest)
               (apply_effects ws
                 (process_url (renv.listing_env idx).penv entry.2.1
                   entry.1 ws).2)
               rest) ∧
    (∀ (renv : RunEnv) (ts idx elapsed : Nat) (ws : Worksheet)
       (links : List (Nat × String × String)),
       elapsed > ts → process_loop renv ts idx elapsed ws links = []) ∧
    (∀ (renv : RunEnv) (test_mode : Bool) (max_links ts : Nat),
       renv.sheets_ok = true →
       (get_todays_outreach_links renv.today_str renv.date_column
           renv.url_column).isEmpty = false →
       (run_outreach_processor renv test_mode max_links ts).1 = true) := by
  refine ⟨?_, ?_, ?_⟩
  · intro renv ts idx elapsed ws entry rest h
    rw [process_loop, if_neg (by omega)]
  · intro renv ts idx elapsed ws links h
    cases links with
    | nil => rfl
    | cons entry rest => rw [process_loop, if_pos h]
  · intro renv test_mode max_links ts hsheets hlinks
    by_cases hto : renv.setup_elapsed > ts <;>
      simp [run_outreach_processor, hsheets, hlinks, hto]

/-- The budget-overrun scenario of the spec: a budget of 5 seconds and two
target-day listings whose processing takes 8 seconds each. -/
def c7_env : RunEnv :=
  { sheets_ok := true
    ws := ⟨fun _ _ => none⟩
    today_str := "10/12"
    date_column := ["Date", "10/12", "10/12"]
    url_column := ["Link", "u1", "u2"]
    setup_elapsed := 0
    loop_start_elapsed := 0
    browser_ok := true
    listing_env := fun _ =>
      ⟨8, ⟨true, "", some ⟨some "jobs@acme.com", none⟩⟩⟩ }

/-- C7 witness: with a 5 second budget, the first 8 second listing is still
processed to completion and recorded, the loop then stops before the second
listing (elapsed 10 exceeds 5), and the run reports the successful exit
status. -/
theorem c7_witness :
    process_loop c7_env 5 0 0 c7_env.ws
        [(2, "u1", "10/12"), (3, "u2", "10/12")] =
      (process_url (c7_env.listing_env 0).penv "u1" 2 c7_env.ws).1 ::
        process_loop c7_env 5 1 10
          (apply_effects c7_env.ws
            (process_url (c7_env.listing_env 0).penv "u1" 2 c7_env.ws).2)
          [(3, "u2", "10/12")] ∧
    process_loop c7_env 5 1 10
        (apply_effects c7_env.ws
          (process_url (c7_env.listing_env 0).penv "u1" 2 c7_env.ws).2)
        [(3, "u2", "10/12")] = [] ∧
    (run_outreach_processor c7_env true 3 5).1 = true := by
  refine ⟨?_, ?_, ?_⟩
  · exact c7_budget_semantics.1 c7_env 5 0 0 c7_env.ws (2, "u1", "10/12")
      [(3, "u2", "10/12")] (by decide)
  · exact c7_budget_semantics.2.1 c7_env 5 1 10
      (apply_effects c7_env.ws
        (process_url (c7_env.listing_env 0).penv "u1" 2 c7_env.ws).2)
      [(3, "u2", "10/12")] (by decide)
  · exact c7_budget_semantics.2.2 c7_env true 3 5 (by decide) (by decide)

end Craigslistscraper
